import Mathlib

/-!
Shallow embedding of the telemetry buffering-and-delivery pipeline in
src/main.py (Pulse32). Python dictionaries are modelled as association
lists from string keys to a small JSON-like value type; network and
filesystem effects are passed in explicitly (a stream of HTTP status
codes for successive POST requests, a parse function standing for
ujson.loads, a serialization function standing for ujson.dumps, and
boolean flags for lock state and injected I/O errors). Line references
point into src/main.py.
-/

set_option autoImplicit false

namespace Pulse32

/-- Metric values inside one sensor group, as built by read_sensors
(main.py:108-129): a mapping from metric name to a number. -/
abbrev Metrics := List (String × Rat)

/-- The sensorGroups structure (main.py:125-129): group name to metrics. -/
abbrev SensorGroups := List (String × Metrics)

/-- Values stored in the dictionaries that the program passes around:
strings (partition keys, formatted timestamps, serialized ids and names)
or the nested sensorGroups mapping. -/
inductive Val where
  | vStr : String → Val
  | vGroups : SensorGroups → Val
deriving DecidableEq, Repr

/-- A Python dict as the program uses it: an ordered association list of
string keys to values. -/
abbrev Reading := List (String × Val)

/-- Key membership test, Python `key in reading`. -/
def hasKey (r : Reading) (k : String) : Bool :=
  r.any (fun p => p.1 == k)

/-- Dictionary lookup, Python `reading[key]`, as an Option. -/
def getKey (r : Reading) (k : String) : Option Val :=
  (r.find? (fun p => p.1 == k)).map (fun p => p.2)

/-- Lookup with a default, used only where the source has already
checked key membership, so the default branch is unreachable there. -/
def getD (r : Reading) (k : String) : Val :=
  (getKey r k).getD (Val.vStr "")

/-- BATCH_SIZE (main.py:22). -/
def BATCH_SIZE : Nat := 8

/-- MAX_FILE_SIZE (main.py:23). -/
def MAX_FILE_SIZE : Nat := 2 * 1024 * 1024

/-- MEMORY_LIMIT (main.py:24). -/
def MEMORY_LIMIT : Nat := 100

/-- PUSH_RETRIES (main.py:27). Defined in the source but referenced
nowhere else in it: push_to_server contains no retry loop. -/
def PUSH_RETRIES : Nat := 3

/-- PUSH_RETRY_DELAY (main.py:28). Also unused by the source logic. -/
def PUSH_RETRY_DELAY : Nat := 2

/-- transform_reading (main.py:174-179). The timestamp formatting
`datetime.utcfromtimestamp(timestamp).isoformat()` is abstracted: the
model receives the already formatted string and appends "Z" exactly as
the source does. The claims depend only on the key structure. -/
def transform_reading (company_name : String) (timestamp_iso : String)
    (sensor_groups : SensorGroups) : Reading :=
  [("partitionKey", Val.vStr company_name),
   ("timestamp", Val.vStr (timestamp_iso ++ "Z")),
   ("sensorGroups", Val.vGroups sensor_groups)]

/-- Python runtime errors relevant to the embedded fragments. -/
inductive PyErr where
  | typeError
deriving DecidableEq, Repr

/-- The calls `transform_reading(reading)` at main.py:248 and
main.py:303 pass one positional argument to a function whose signature
(main.py:174) requires three positional parameters, so CPython raises
TypeError before the function body runs. This models that call. -/
def transform_reading_call (_r : Reading) : Except PyErr Reading :=
  .error .typeError

/-- The list comprehension
`[transform_reading(reading) for reading in batch]` at main.py:303,
evaluated left to right; the first TypeError propagates. -/
def transform_list_call : List Reading → Except PyErr (List Reading)
  | [] => .ok []
  | r :: rest =>
    match transform_reading_call r with
    | .error e => .error e
    | .ok t =>
      match transform_list_call rest with
      | .error e => .error e
      | .ok ts => .ok (t :: ts)

/-- Wire-format precondition of push_to_server (main.py:185-188): every
reading must carry the keys id, partitionKey and name. -/
def validReading (r : Reading) : Bool :=
  hasKey r "id" && hasKey r "partitionKey" && hasKey r "name"

/-- One payload entry (main.py:189): the projection of a reading onto
the id, partitionKey and name fields. The defaults in getD are
unreachable because validation has already passed. -/
def payloadOf (r : Reading) : Reading :=
  [("id", getD r "id"),
   ("partitionKey", getD r "partitionKey"),
   ("name", getD r "name")]

/-- Result of push_to_server: the returned boolean together with the
payloads actually transmitted over the network, in order. An empty
`sent` means no HTTP request was issued. -/
structure PushOutcome where
  ok : Bool
  sent : List (List Reading)
deriving DecidableEq, Repr

/-- push_to_server (main.py:183-205). `statuses` is the stream of HTTP
status codes the server would answer to successive POST requests; an
exhausted stream stands for a transport-level exception, which the
handler at main.py:202 turns into False just like a non-200 status.
The source performs exactly one `urequests.post` per call: there is no
retry loop, and PUSH_RETRIES / PUSH_RETRY_DELAY are never consulted.
Validation failure returns False before any request is issued. -/
def push_to_server (statuses : List Nat) (batch : List Reading) : PushOutcome :=
  if batch.all validReading then
    let payload := batch.map payloadOf
    { ok := statuses.headD 0 == 200, sent := [payload] }
  else
    { ok := false, sent := [] }

/-- The locked push step of sensor_thread (main.py:160-165): append the
reading when the shared list is below MEMORY_LIMIT, otherwise discard
the incoming reading. The boolean records which branch executed (the
source logs an info message on append and a warning on discard). -/
def queue_push (q : List Reading) (r : Reading) : Bool × List Reading :=
  if q.length < MEMORY_LIMIT then (true, q ++ [r]) else (false, q)

/-- Byte size of the overflow file, os.stat(filename)[6] at
main.py:211: the file holds one serialized reading per line
(main.py:216-218), so its size is the sum of the line lengths plus one
newline byte per line. `none` models an absent file (size 0 branch of
main.py:211). -/
def fileSize (file : Option (List String)) : Nat :=
  match file with
  | none => 0
  | some lines => (lines.map (fun l => l.length + 1)).sum

/-- save_to_file (main.py:209-224). `dumps` stands for ujson.dumps.
The guard at main.py:212 compares the CURRENT file size against
MAX_FILE_SIZE; when it passes, the whole batch is appended, one line
per reading (open in mode "a" creates the file when absent). Returns
the boolean result and the file afterwards. -/
def save_to_file (dumps : Reading → String) (batch : List Reading)
    (file : Option (List String)) : Bool × Option (List String) :=
  if MAX_FILE_SIZE ≤ fileSize file then
    (false, file)
  else
    (true, some (file.getD [] ++ batch.map dumps))

/-- Environment of one flush_file call: the ujson.loads parse function
(`none` is a parse exception, caught at main.py:258), the stream of
HTTP statuses for uploads performed during the flush, and a flag
injecting an OSError while reading the file (main.py:236-237), which
the handler at main.py:269 turns into False. -/
structure FlushEnv where
  parse : String → Option Reading
  statuses : List Nat
  readFails : Bool

/-- Running state of the line loop in flush_file (main.py:238-259):
the accumulating batch, processed_lines, the number of push_to_server
calls that issued a request, and the remaining status stream. -/
structure FlushLoopState where
  batch : List Reading
  processed : Nat
  pushes : Nat
  statuses : List Nat

/-- The per-line loop of flush_file (main.py:240-259). Each line is
parsed (a parse exception skips the line); records missing timestamp,
partitionKey or sensorGroups are skipped (main.py:244-246); then
`transform_reading(reading)` is evaluated, whose TypeError is caught by
the handler at main.py:258 and skips the line as well. On the
unreachable success path the batch grows and full batches are pushed;
a failed push stops the loop (break at main.py:257), a successful one
records processed_lines and clears the batch. The second argument is
the number of lines already consumed, so enumerate starts at 1. -/
def flush_loop (parse : String → Option Reading) :
    List String → Nat → FlushLoopState → FlushLoopState
  | [], _, st => st
  | line :: rest, consumed, st =>
    let n := consumed + 1
    match parse line with
    | none => flush_loop parse rest n st
    | some reading =>
      if hasKey reading "timestamp" && hasKey reading "partitionKey"
          && hasKey reading "sensorGroups" then
        match transform_reading_call reading with
        | .error _ => flush_loop parse rest n st
        | .ok t =>
          let batch := st.batch ++ [t]
          if BATCH_SIZE ≤ batch.length then
            let outcome := push_to_server st.statuses batch
            let remaining := st.statuses.drop outcome.sent.length
            if outcome.ok then
              flush_loop parse rest n
                { batch := [], processed := n,
                  pushes := st.pushes + outcome.sent.length,
                  statuses := remaining }
            else
              { st with batch := batch,
                        pushes := st.pushes + outcome.sent.length,
                        statuses := remaining }
          else
            flush_loop parse rest n { st with batch := batch }
      else
        flush_loop parse rest n st

/-- Result of flush_file: the returned boolean, the store file
afterwards (`none` when absent or deleted), the state of
flushing_file_lock after the call, and how many HTTP requests the
flush issued. -/
structure FlushResult where
  ret : Bool
  file : Option (List String)
  lockHeld : Bool
  pushes : Nat
deriving DecidableEq, Repr

/-- flush_file (main.py:227-273). `lockBusy` says whether
flushing_file_lock is already held by another caller when the
non-blocking acquire at main.py:229 runs; in that case the call
returns False at once without touching the file and the lock stays
with its holder. Otherwise the lock is acquired and the try/finally
releases it on every exit: the absent-file early return (main.py:235),
the injected read error (handler at main.py:269), and both rewrite
paths (main.py:260-268). When processed_lines is smaller than the
number of lines the file is rewritten with the suffix
lines[processed_lines:], otherwise it is deleted. -/
def flush_file (env : FlushEnv) (file : Option (List String))
    (lockBusy : Bool) : FlushResult :=
  if lockBusy then
    { ret := false, file := file, lockHeld := true, pushes := 0 }
  else
    match file with
    | none => { ret := true, file := none, lockHeld := false, pushes := 0 }
    | some lines =>
      if env.readFails then
        { ret := false, file := some lines, lockHeld := false, pushes := 0 }
      else
        let fin := flush_loop env.parse lines 0
          { batch := [], processed := 0, pushes := 0, statuses := env.statuses }
        if fin.processed < lines.length then
          { ret := true, file := some (lines.drop fin.processed),
            lockHeld := false, pushes := fin.pushes }
        else
          { ret := true, file := none, lockHeld := false, pushes := fin.pushes }

/-- Shared and loop-local state visible to one main-loop iteration:
the local pending batch, the shared sensor_data list, and the overflow
file. -/
structure SysState where
  batch : List Reading
  sensor_data : List Reading
  file : Option (List String)
deriving DecidableEq, Repr

/-- Environment of one main-loop iteration: the outcome of
connect_wifi (both at main.py:289 and main.py:304 within one
iteration), the flush environment, the status stream for the direct
upload at main.py:304, the serializer for save_to_file, and whether
the flush lock is busy. -/
structure CycleEnv where
  wifi : Bool
  flushEnv : FlushEnv
  statuses : List Nat
  dumps : Reading → String
  lockBusy : Bool

/-- Result of one main-loop iteration: the state afterwards, and
whether an exception reached the top-level handler at main.py:315. -/
structure CycleResult where
  state : SysState
  raised : Bool
deriving DecidableEq, Repr

/-- One iteration of the while loop of main (main.py:284-313).
Step 1 (main.py:289-291): flush when the file exists and Wi-Fi
connects. Step 2 (main.py:294-298): drain sensor_data into the local
batch. Step 3 (main.py:301-311): when the batch has reached
BATCH_SIZE, evaluate the comprehension at main.py:303 — whose
TypeError propagates to the top-level handler, leaving the batch as
drained — and on its (unreachable) success attempt upload, then
durable save, then the single pop(0) eviction. -/
def main_cycle (env : CycleEnv) (st : SysState) : CycleResult :=
  let file1 :=
    if st.file.isSome && env.wifi then
      (flush_file env.flushEnv st.file env.lockBusy).file
    else st.file
  let batch := st.batch ++ st.sensor_data
  if BATCH_SIZE ≤ batch.length then
    match transform_list_call batch with
    | .error _ =>
      { state := { batch := batch, sensor_data := [], file := file1 },
        raised := true }
    | .ok transformed =>
      if env.wifi && (push_to_server env.statuses transformed).ok then
        { state := { batch := [], sensor_data := [], file := file1 },
          raised := false }
      else
        match save_to_file env.dumps batch file1 with
        | (false, file2) =>
          if MEMORY_LIMIT ≤ batch.length then
            { state := { batch := batch.drop 1, sensor_data := [], file := file2 },
              raised := false }
          else
            { state := { batch := batch, sensor_data := [], file := file2 },
              raised := false }
        | (true, file2) =>
          { state := { batch := [], sensor_data := [], file := file2 },
            raised := false }
  else
    { state := { batch := batch, sensor_data := [], file := file1 },
      raised := false }

/-- A store line that parses to a record carrying all three keys the
flush loop checks for (main.py:244). -/
def parsedRecord (s : String) : Reading :=
  [("timestamp", Val.vStr s),
   ("partitionKey", Val.vStr s),
   ("sensorGroups", Val.vGroups [])]

/-- A parse function under which every stored line is parseable. -/
def parseAll : String → Option Reading :=
  fun s => some (parsedRecord s)

/-- A store of 16 distinct parseable records (two full batches). -/
def lines16 : List String :=
  (List.range 16).map (fun i => "rec" ++ toString i)

/-- A reading that satisfies the wire-format check of push_to_server. -/
def wireReading : Reading :=
  [("id", Val.vStr "i"), ("partitionKey", Val.vStr "p"), ("name", Val.vStr "n")]

/-- A stored overflow record as flush would parse it. -/
def storedReading : Reading := parsedRecord "t"

/-- A pending batch already at MEMORY_LIMIT entries. -/
def priorBatch : List Reading := List.replicate MEMORY_LIMIT storedReading

/-- The one newly drained reading of the eviction scenario, shaped as
sensor_thread produces it (a transform_reading output, main.py:153). -/
def newReading : Reading := transform_reading "company_ABC" "t2" []

/-- A cycle environment with no connectivity, no file activity. -/
def offlineEnv : CycleEnv :=
  { wifi := false,
    flushEnv := { parse := parseAll, statuses := [], readFails := false },
    statuses := [],
    dumps := fun _ => "{}",
    lockBusy := false }

/-- Lines of an overflow file whose total size is one byte below
MAX_FILE_SIZE: 1048575 one-byte lines (two bytes each with the
newline) plus one empty line (one byte). -/
def nearFullLines : List String := List.replicate 1048575 "a" ++ [""]

/-- An overflow file one byte below MAX_FILE_SIZE. -/
def nearFullFile : Option (List String) := some nearFullLines

/-! Helper lemmas shared by the claim theorems. -/

theorem fileSize_some_append (l1 l2 : List String) :
    fileSize (some (l1 ++ l2)) = fileSize (some l1) + fileSize (some l2) := by
  simp [fileSize]

theorem fileSize_some_replicate (n : Nat) (s : String) :
    fileSize (some (List.replicate n s)) = n * (s.length + 1) := by
  simp [fileSize, List.map_replicate, List.sum_replicate, smul_eq_mul]

theorem fileSize_getD (file : Option (List String)) :
    fileSize (some (file.getD [])) = fileSize file := by
  cases file <;> simp [fileSize]

theorem fileSize_map_dumps (dumps : Reading → String) (batch : List Reading) :
    fileSize (some (batch.map dumps)) = (batch.map (fun r => (dumps r).length + 1)).sum := by
  simp only [fileSize, List.map_map]
  rfl

theorem fileSize_nearFull : fileSize nearFullFile = MAX_FILE_SIZE - 1 := by
  rw [nearFullFile, nearFullLines, fileSize_some_append, fileSize_some_replicate]
  have h1 : String.length "a" = 1 := rfl
  have h2 : fileSize (some [""]) = 1 := rfl
  rw [h1, h2, MAX_FILE_SIZE]

theorem push_fails_of_invalid_mem (statuses : List Nat) (batch : List Reading)
    (r : Reading) (hr : r ∈ batch) (hv : validReading r = false) :
    push_to_server statuses batch = { ok := false, sent := [] } := by
  have hall : batch.all validReading = false := by
    cases hab : batch.all validReading
    · rfl
    · have := List.all_eq_true.mp hab r hr
      rw [hv] at this
      exact absurd this (by simp)
  simp [push_to_server, hall]

theorem validReading_transform (c t : String) (g : SensorGroups) :
    validReading (transform_reading c t g) = false := rfl

theorem flush_file_ret_true (env : FlushEnv) (file : Option (List String))
    (h : env.readFails = false) : (flush_file env file false).ret = true := by
  rcases file with _ | lines
  · rfl
  · simp only [flush_file, Bool.false_eq_true, if_false, h]
    split <;> rfl

/-! Claim theorems. -/

/-- Claim C1. The claim asserts that flushing a store of K = 16
parseable records with an injected upload failure on the J = 2nd batch
leaves exactly the records from index (J-1)·BATCH_SIZE = 8 onward, and
that an all-successful flush deletes the file. In the source, every
line of the loop body reaches the TypeError raised by
`transform_reading(reading)` (one argument passed, three required,
main.py:248), which the per-line handler swallows: no batch is ever
assembled, no upload is issued, processed_lines stays 0, and the file
is rewritten with all 16 records regardless of the status stream —
and never deleted even when every status is 200. -/
theorem C1_flush_uploads_nothing :
    flush_file { parse := parseAll, statuses := [200, 500], readFails := false }
        (some lines16) false
      = { ret := true, file := some lines16, lockHeld := false, pushes := 0 } ∧
    (flush_file { parse := parseAll, statuses := [200, 200], readFails := false }
        (some lines16) false).file = some lines16 ∧
    some lines16 ≠ some (lines16.drop BATCH_SIZE) := by
  refine ⟨rfl, rfl, ?_⟩
  decide

/-- Claim C2. The claim asserts retries with exponential backoff, and
success after exactly 2 attempts when the server answers 500 then 200.
push_to_server (main.py:183-205) performs a single POST and returns
False on the first non-200 answer; PUSH_RETRIES and PUSH_RETRY_DELAY
are declared (main.py:27-28) but never consulted. With statuses 500
then 200, the result is failure after exactly one transmitted
request. -/
theorem C2_no_retry_single_attempt :
    push_to_server [500, 200] [wireReading]
      = { ok := false, sent := [[payloadOf wireReading]] } ∧
    PUSH_RETRIES = 3 :=
  ⟨rfl, rfl⟩

/-- Claim C3, counterexample. With a store one byte below
MAX_FILE_SIZE and a one-reading batch serializing to two bytes, the
resulting size (MAX_FILE_SIZE + 2) would exceed the cap, yet
save_to_file accepts the append and the stored bytes then exceed
MAX_FILE_SIZE: the guard at main.py:212 compares the current size,
not the resulting one. -/
theorem C3_counterexample_cap_exceeded :
    (save_to_file (fun _ => "{}") [[]] nearFullFile).1 = true ∧
    MAX_FILE_SIZE < fileSize (save_to_file (fun _ => "{}") [[]] nearFullFile).2 := by
  have hlt : ¬ MAX_FILE_SIZE ≤ fileSize nearFullFile := by
    rw [fileSize_nearFull]
    simp [MAX_FILE_SIZE]
  constructor
  · simp only [save_to_file, if_neg hlt]
  · simp only [save_to_file, if_neg hlt]
    rw [show nearFullFile.getD [] = nearFullLines from rfl,
        show ([([] : Reading)].map (fun _ => "{}")) = ["{}"] from rfl,
        fileSize_some_append,
        show fileSize (some nearFullLines) = MAX_FILE_SIZE - 1 from fileSize_nearFull,
        show fileSize (some ["{}"]) = 3 from rfl]
    simp [MAX_FILE_SIZE]

/-- Claim C3, amended: save_to_file rejects the append, leaving the
file byte-identical, exactly when the CURRENT stored size is already
at least MAX_FILE_SIZE; otherwise the whole batch is appended in one
operation, so the stored size afterwards equals the old size plus the
serialized batch size and can therefore exceed MAX_FILE_SIZE by up to
one batch (it stays below MAX_FILE_SIZE plus the bytes of the batch). -/
theorem C3_amended_current_size_guard (dumps : Reading → String)
    (batch : List Reading) (file : Option (List String)) :
    (MAX_FILE_SIZE ≤ fileSize file → save_to_file dumps batch file = (false, file)) ∧
    (fileSize file < MAX_FILE_SIZE →
      save_to_file dumps batch file = (true, some (file.getD [] ++ batch.map dumps)) ∧
      fileSize (save_to_file dumps batch file).2
        = fileSize file + (batch.map (fun r => (dumps r).length + 1)).sum ∧
      fileSize (save_to_file dumps batch file).2
        < MAX_FILE_SIZE + (batch.map (fun r => (dumps r).length + 1)).sum) := by
  constructor
  · intro h
    simp only [save_to_file, if_pos h]
  · intro h
    have hn : ¬ MAX_FILE_SIZE ≤ fileSize file := by omega
    refine ⟨by simp only [save_to_file, if_neg hn], ?_, ?_⟩
    · simp only [save_to_file, if_neg hn]
      rw [fileSize_some_append, fileSize_getD, fileSize_map_dumps]
    · simp only [save_to_file, if_neg hn]
      rw [fileSize_some_append, fileSize_getD, fileSize_map_dumps]
      omega

/-- Witness for the amended Claim C3 at a concrete input. -/
theorem C3_amended_witness :
    fileSize (some ["ab"]) < MAX_FILE_SIZE ∧
    save_to_file (fun _ => "{}") [[]] (some ["ab"]) = (true, some ["ab", "{}"]) := by
  refine ⟨by decide, ?_⟩
  exact ((C3_amended_current_size_guard (fun _ => "{}") [[]] (some ["ab"])).2
    (by decide)).1

/-- Claim C4. The locked push step of sensor_thread keeps the shared
list at or below MEMORY_LIMIT: below the limit the reading is appended
(append branch, reported true here), at or above it the incoming
reading is discarded drop-newest with every existing entry unchanged
(discard branch, reported false). -/
theorem C4_queue_bounded_drop_newest (q : List Reading) (r : Reading) :
    (q.length ≤ MEMORY_LIMIT → ((queue_push q r).2).length ≤ MEMORY_LIMIT) ∧
    (q.length < MEMORY_LIMIT → queue_push q r = (true, q ++ [r])) ∧
    (MEMORY_LIMIT ≤ q.length → queue_push q r = (false, q)) := by
  refine ⟨?_, ?_, ?_⟩
  · intro h
    by_cases hq : q.length < MEMORY_LIMIT
    · simp only [queue_push, if_pos hq]
      simp only [List.length_append, List.length_singleton]
      omega
    · simp only [queue_push, if_neg hq]
      exact h
  · intro h
    simp only [queue_push, if_pos h]
  · intro h
    have hq : ¬ q.length < MEMORY_LIMIT := by omega
    simp only [queue_push, if_neg hq]

/-- Witness for Claim C4 at a concrete full queue. -/
theorem C4_queue_witness :
    priorBatch.length ≤ MEMORY_LIMIT ∧
    ((queue_push priorBatch newReading).2).length ≤ MEMORY_LIMIT ∧
    queue_push priorBatch newReading = (false, priorBatch) := by
  have hlen : priorBatch.length = MEMORY_LIMIT := by
    simp [priorBatch]
  have h := C4_queue_bounded_drop_newest priorBatch newReading
  exact ⟨by omega, h.1 (by omega), h.2.2 (by omega)⟩

/-- Claim C5. When any reading of the batch is missing a field
required by the wire format (id, partitionKey or name), push_to_server
returns False from the validation loop at main.py:185-188, before any
HTTP request is issued (sent stays empty), and no retry exists to be
consumed. -/
theorem C5_invalid_record_no_request (statuses : List Nat)
    (batch : List Reading) (r : Reading) (hr : r ∈ batch)
    (hv : validReading r = false) :
    push_to_server statuses batch = { ok := false, sent := [] } :=
  push_fails_of_invalid_mem statuses batch r hr hv

/-- Witness for Claim C5: a stored-format reading lacks the id field,
so the batch holding it is rejected without any request. -/
theorem C5_witness :
    storedReading ∈ [storedReading] ∧
    validReading storedReading = false ∧
    push_to_server [200] [storedReading] = { ok := false, sent := [] } :=
  ⟨by simp, by decide,
    C5_invalid_record_no_request [200] [storedReading] storedReading
      (by simp) (by decide)⟩

/-- Claim C6. For a batch passing the wire-format check, the single
transmitted payload is exactly the order-preserving image of the
batch under the field projection of main.py:189 (one entry per
reading, the i-th entry derived from the i-th reading), and the call
reports success precisely when the HTTP status is 200. -/
theorem C6_payload_order_status_200 (status : Nat) (rest : List Nat)
    (batch : List Reading) (hv : batch.all validReading = true) :
    ((push_to_server (status :: rest) batch).ok = true ↔ status = 200) ∧
    (push_to_server (status :: rest) batch).sent = [batch.map payloadOf] ∧
    (batch.map payloadOf).length = batch.length ∧
    (∀ (i : Nat) (h : i < batch.length),
      (batch.map payloadOf).get ⟨i, by simpa using h⟩
        = payloadOf (batch.get ⟨i, h⟩)) := by
  refine ⟨?_, ?_, by simp, ?_⟩
  · simp [push_to_server, hv]
  · simp [push_to_server, hv]
  · intro i h
    simp

/-- Witness for Claim C6 at a concrete valid batch answered 200. -/
theorem C6_witness :
    ([wireReading].all validReading = true) ∧
    (push_to_server [200] [wireReading]).ok = true ∧
    (push_to_server [200] [wireReading]).sent = [[payloadOf wireReading]] := by
  have h := C6_payload_order_status_200 200 [] [wireReading] (by decide)
  exact ⟨by decide, h.1.mpr rfl, h.2.1⟩

/-- Claim C7. The claim asserts drop-oldest eviction on the pending
batch when upload and durable append both fail. In the source the
iteration never reaches the eviction statement: with the batch at
BATCH_SIZE or more, the comprehension at main.py:303 calls
transform_reading with one argument instead of three, the TypeError
propagates to the top-level handler at main.py:315, and the batch
keeps all MEMORY_LIMIT + 1 entries, oldest included. -/
theorem C7_eviction_unreachable :
    main_cycle offlineEnv
        { batch := priorBatch, sensor_data := [newReading], file := none }
      = { state := { batch := priorBatch ++ [newReading], sensor_data := [],
                     file := none },
          raised := true } ∧
    (priorBatch ++ [newReading]).length = MEMORY_LIMIT + 1 := by
  refine ⟨rfl, ?_⟩
  simp [priorBatch]

/-- Claim C8. When flushing_file_lock is already held, flush_file
returns False immediately with the store file untouched and no upload
issued; when the lock is free it is acquired and released on every
exit path, the injected read-error path included. -/
theorem C8_flush_lock_skip_and_release (env : FlushEnv)
    (file : Option (List String)) :
    flush_file env file true
      = { ret := false, file := file, lockHeld := true, pushes := 0 } ∧
    (flush_file env file false).lockHeld = false := by
  constructor
  · rfl
  · rcases file with _ | lines
    · rfl
    · by_cases hrf : env.readFails = true
      · simp [flush_file, hrf]
      · simp only [Bool.not_eq_true] at hrf
        simp only [flush_file, hrf, Bool.false_eq_true, if_false]
        split <;> rfl

/-- Claim C9. Every transform_reading output carries exactly the keys
partitionKey, timestamp and sensorGroups and never id or name, so any
non-empty batch of such outputs fails the wire-format validation of
push_to_server and no network request is issued. -/
theorem C9_transform_shape_blocks_upload :
    (∀ (c t : String) (g : SensorGroups),
      (transform_reading c t g).map Prod.fst
          = ["partitionKey", "timestamp", "sensorGroups"] ∧
      hasKey (transform_reading c t g) "id" = false ∧
      hasKey (transform_reading c t g) "name" = false) ∧
    (∀ (statuses : List Nat) (batch : List Reading),
      batch ≠ [] →
      (∀ r ∈ batch, ∃ c t g, r = transform_reading c t g) →
      push_to_server statuses batch = { ok := false, sent := [] }) := by
  constructor
  · intro c t g
    exact ⟨rfl, rfl, rfl⟩
  · intro statuses batch hne hall
    obtain ⟨r, hr⟩ : ∃ r, r ∈ batch := by
      cases batch with
      | nil => exact absurd rfl hne
      | cons a l => exact ⟨a, by simp⟩
    obtain ⟨c, t, g, hform⟩ := hall r hr
    exact push_fails_of_invalid_mem statuses batch r hr
      (hform ▸ validReading_transform c t g)

/-- Witness for Claim C9 at a concrete transform_reading output. -/
theorem C9_witness :
    ([transform_reading "company_ABC" "t" []] ≠ ([] : List Reading)) ∧
    push_to_server [200] [transform_reading "company_ABC" "t" []]
      = { ok := false, sent := [] } := by
  refine ⟨by simp, C9_transform_shape_blocks_upload.2 [200] _ (by simp) ?_⟩
  intro r hr
  rw [List.mem_singleton] at hr
  exact ⟨"company_ABC", "t", [], hr⟩

/-- Claim C10. Whenever the flush lock is acquired and no internal
exception occurs, flush_file returns True regardless of whether any
record was uploaded (in the source, none ever is); False is returned
only when the lock was busy or an internal exception occurred. -/
theorem C10_flush_true_when_lock_free (env : FlushEnv)
    (file : Option (List String)) (busy : Bool) :
    (env.readFails = false → (flush_file env file false).ret = true) ∧
    ((flush_file env file busy).ret = false →
      busy = true ∨ env.readFails = true) := by
  constructor
  · intro h
    exact flush_file_ret_true env file h
  · intro hret
    rcases Bool.eq_false_or_eq_true busy with hb | hb
    · exact Or.inl hb
    · rcases Bool.eq_false_or_eq_true env.readFails with hrf | hrf
      · exact Or.inr hrf
      · exfalso
        rw [hb] at hret
        rw [flush_file_ret_true env file hrf] at hret
        exact absurd hret (by simp)

/-- Witness for Claim C10 at a concrete environment and store. -/
theorem C10_witness :
    ({ parse := parseAll, statuses := [], readFails := false } : FlushEnv).readFails
        = false ∧
    (flush_file { parse := parseAll, statuses := [], readFails := false }
        (some lines16) false).ret = true :=
  ⟨rfl,
    (C10_flush_true_when_lock_free
      { parse := parseAll, statuses := [], readFails := false }
      (some lines16) false).1 rfl⟩

end Pulse32
